import Mathlib

/-!
Shallow embedding of the article lifecycle core of `api-article.go`
(story-api): the `Article` record, the id codec `parseArticleId`, and the
HTTP handlers `createArticle`, `saveArticle`, `submitArticle`,
`editArticle`, `publishArticle` over a deterministic document store with
three collections (drafts, versions, publishes).

Modelling conventions:
* Go `int64` values (versions, `UnixNano` timestamps) are `Int`; the
  `strconv.ParseInt` range check is modelled explicitly.
* `*JSONTime` fields are `Option Int` (nanoseconds); `nil` is `none`
  (`unmarshalArticle` nils zero times, so stored time fields are either
  absent or meaningful).
* The Elasticsearch scripted update (`ESScriptSaveArticle`) is
  `esSaveScript`: with `checkuser` and a foreign `locked_by` it sets
  `ctx.op = "none"` (result `noop`, modelled as `none`); otherwise it
  overwrites exactly the five payload fields.  Scripted updates ignore
  `detect_noop`, which only applies to partial-document updates.
* `Index` with `OpType("create")` fails (`Created = false`) exactly when
  the id already exists; `Delete` of a missing id is an error; `Update`
  with `Doc` + `DocAsUpsert` inserts when absent and otherwise merges the
  JSON document, in which `omitempty` fields (empty strings, zero
  numbers, empty lists, nil times) are absent and therefore keep the
  previously stored value.
* Handlers are single-threaded here, so the per-id mutexes are no-ops;
  the race branch of `editArticle` (lines 461-476) is exposed as
  `editReload`, parameterised by the store state observed at the reload.
-/

structure Article where
  id : String
  guid : String
  version : Int
  headline : String
  summary : String
  content : String
  tag : List String
  note : String
  createdAt : Option Int
  createdBy : String
  revisedAt : Option Int
  revisedBy : String
  fromVersion : Int
  lockedBy : String
deriving DecidableEq, Repr

def emptyArticle : Article :=
  { id := "", guid := "", version := 0, headline := "", summary := "",
    content := "", tag := [], note := "", createdAt := none, createdBy := "",
    revisedAt := none, revisedBy := "", fromVersion := 0, lockedBy := "" }

/-- The three logical collections of the article index
(types `draft`, `version`, `publish`). -/
structure Store where
  drafts : String → Option Article
  versions : String → Option Article
  publishes : String → Option Article

def setKey (m : String → Option Article) (k : String) (v : Option Article) :
    String → Option Article :=
  fun x => if x = k then v else m x

def emptyStore : Store :=
  { drafts := fun _ => none, versions := fun _ => none, publishes := fun _ => none }

/-- An HTTP-shaped handler result: status code plus the marshalled
article payload when the body is an article (`none` for text bodies). -/
structure Resp where
  status : Nat
  payload : Option Article
deriving DecidableEq, Repr

/-! ## The id codec: `parseArticleId` and the decimal rendering of versions -/

/-- Result of `parseArticleId`: `(guid, version, err)`; `err` models a
non-nil Go `error` return. -/
structure ParsedId where
  guid : String
  ver : Int
  err : Bool
deriving DecidableEq, Repr

/-- Index of the last `':'` in the list, as `strings.LastIndex` computes
it (`none` models Go's `-1`). -/
def lastColonIdx : List Char → Option Nat
  | [] => none
  | c :: rest =>
    match lastColonIdx rest with
    | some i => some (i + 1)
    | none => if c = ':' then some 0 else none

/-- Value of an ASCII decimal digit, `none` for any other character
(base-10 `strconv.ParseInt` accepts only `0`-`9`). -/
def digitVal (c : Char) : Option Nat :=
  if '0' ≤ c ∧ c ≤ '9' then some (c.toNat - 48) else none

def parseDigitsAux : Nat → List Char → Option Nat
  | acc, [] => some acc
  | acc, c :: rest =>
    match digitVal c with
    | some d => parseDigitsAux (acc * 10 + d) rest
    | none => none

/-- Digit-string value; `none` on the empty string or any non-digit. -/
def parseDigits (cs : List Char) : Option Nat :=
  if cs.isEmpty then none else parseDigitsAux 0 cs

def int64Max : Nat := 2 ^ 63 - 1

/-- `strconv.ParseInt(s, 10, 64)`: optional sign, one or more decimal
digits, value within the `int64` range; `none` models a non-nil error
(in which case Go also returns `0` for the value, handled at the call
site). -/
def goParseInt64 (cs : List Char) : Option Int :=
  match cs with
  | [] => none
  | c :: rest =>
    if c = '+' then
      match parseDigits rest with
      | some n => if n ≤ int64Max then some (n : Int) else none
      | none => none
    else if c = '-' then
      match parseDigits rest with
      | some n => if n ≤ 2 ^ 63 then some (-(n : Int)) else none
      | none => none
    else
      match parseDigits (c :: rest) with
      | some n => if n ≤ int64Max then some (n : Int) else none
      | none => none

/-- `parseArticleId` (lines 173-186): split on the last `':'`; `idx ≤ 0`
(absent, or at position 0) returns the whole id with version 0; otherwise
the guid is the part before the last `':'` and the suffix is parsed as an
`int64`, a parse failure yielding version 0 plus an error. -/
def parseArticleId (id : String) : ParsedId :=
  match lastColonIdx id.data with
  | none => ⟨id, 0, false⟩
  | some i =>
    if i = 0 then ⟨id, 0, false⟩
    else
      match goParseInt64 (id.data.drop (i + 1)) with
      | some v => ⟨⟨id.data.take i⟩, v, false⟩
      | none => ⟨⟨id.data.take i⟩, 0, true⟩

/-- Least-significant-first decimal digits of `n`, fuel-bounded so the
recursion is structural (fuel `n` always suffices since the argument is
divided by 10 each step). -/
def natDecimalRevAux : Nat → Nat → List Char
  | 0, _ => []
  | _ + 1, 0 => []
  | f + 1, m + 1 => Nat.digitChar ((m + 1) % 10) :: natDecimalRevAux f ((m + 1) / 10)

def natDecimalRev (n : Nat) : List Char := natDecimalRevAux n n

/-- Decimal rendering of a natural number, as `fmt.Sprintf("%v", n)`
renders it. -/
def natDecimal (n : Nat) : String :=
  if n = 0 then "0" else ⟨(natDecimalRev n).reverse⟩

/-- Decimal rendering of an `int64`, as `fmt.Sprintf("%v", v)` renders
it: used by `submitArticle` to build the version id `guid:version`. -/
def intDecimal (v : Int) : String :=
  if v < 0 then "-" ++ natDecimal v.natAbs else natDecimal v.toNat

/-! ## The handlers -/

/-- The five payload fields `ESScriptSaveArticle` writes
(`headline`, `summary`, `content`, `tag`, `note`); `revised_at` is passed
as a script parameter but the script never reads it. -/
def applySaveFields (body src : Article) : Article :=
  { src with
    headline := body.headline,
    summary := body.summary,
    content := body.content,
    tag := body.tag,
    note := body.note }

/-- `ESScriptSaveArticle` run against a stored document: `none` models
`ctx.op = "none"` (the update response reports result `noop`), which the
script chooses exactly when `checkuser` is set and the stored `locked_by`
differs from the caller. -/
def esSaveScript (checkuser : Bool) (username : String) (body src : Article) :
    Option Article :=
  if checkuser ∧ src.lockedBy ≠ username then none
  else some (applySaveFields body src)

/-- `createArticle` (lines 217-248): index a draft holding only
`locked_by` and `from_version = 0` with a store-allocated fresh id
(`newId`), then answer 200 with the id, guid, `created_by` and
`locked_by` filled in (the stored draft itself carries no `created_by`
and no `created_at`). -/
def createArticle (s : Store) (newId username : String) : Store × Resp :=
  let stored : Article := { emptyArticle with lockedBy := username, fromVersion := 0 }
  let s1 : Store := { s with drafts := setKey s.drafts newId (some stored) }
  let resp : Article :=
    { stored with id := newId, guid := newId, createdBy := username, lockedBy := username }
  (s1, ⟨200, some resp⟩)

/-- `saveArticle` (lines 250-306): scripted conditional update of the
draft `id` with `checkuser = true`; a missing draft is 404, result
`noop` (lock held by someone else) is 403, result `updated` is 200. -/
def saveArticle (s : Store) (id username : String) (body : Article) : Store × Resp :=
  match s.drafts id with
  | none => (s, ⟨404, none⟩)
  | some src =>
    match esSaveScript true username body src with
    | none => (s, ⟨403, none⟩)
    | some a => ({ s with drafts := setKey s.drafts id (some a) }, ⟨200, none⟩)

/-- The version document `submitArticle` indexes (lines 354-368): the
request-body article with `Id := verGuid`, `Version := ts`, provenance
set from `FromVersion` (`= 0` is a first creation: `CreatedAt/By` set to
the submit instant and user, `RevisedAt/By` cleared; `≠ 0` is an edit:
`CreatedAt/By` left as the body carries them, `RevisedAt/By` set), and
`LockedBy` cleared. -/
def submitVersionDoc (body : Article) (verGuid username : String) (ts : Int) : Article :=
  let a1 : Article := { body with id := verGuid, version := ts }
  let a2 : Article :=
    if a1.fromVersion = 0 then
      { a1 with
        createdAt := some ts,
        createdBy := username,
        revisedAt := none,
        revisedBy := "" }
    else
      { a1 with revisedAt := some ts, revisedBy := username }
  { a2 with lockedBy := "" }

/-- `submitArticle` (lines 308-401) at clock instant `ts`
(= `time.Now().UTC().UnixNano()`):
(1) unconditional scripted update of the draft keyed by the request id
`guid` (`checkuser = false`; any update failure, a missing draft
included, is 500);
(2) version id `guid:ver` with `ver = ts`;
(3) create-only index of the request-body article (with id, version,
provenance and cleared `locked_by` filled in) under the version id —
an existing id means `Created = false`, answered 500 with no retry;
(4) delete of the draft keyed by the request body's `guid` field
(`article.Guid`, line 388), a failed delete being 500;
then answer 200 with the version metadata, payload fields stripped. -/
def submitArticle (s : Store) (guid username : String) (body : Article) (ts : Int) :
    Store × Resp :=
  match s.drafts guid with
  | none => (s, ⟨500, none⟩)
  | some src =>
    let s1 : Store := { s with drafts := setKey s.drafts guid (some (applySaveFields body src)) }
    let verGuid : String := guid ++ ":" ++ intDecimal ts
    let a3 : Article := submitVersionDoc body verGuid username ts
    match s1.versions verGuid with
    | some _ => (s1, ⟨500, none⟩)
    | none =>
      let s2 : Store := { s1 with versions := setKey s1.versions verGuid (some a3) }
      match s2.drafts a3.guid with
      | none => (s2, ⟨500, none⟩)
      | some _ =>
        let s3 : Store := { s2 with drafts := setKey s2.drafts a3.guid none }
        let out : Article :=
          { a3 with headline := "", summary := "", content := "", tag := [], note := "" }
        (s3, ⟨200, some out⟩)

/-- The `!resp.Created` branch of `editArticle` (lines 461-476), taking
the store state observed at the reload (a concurrent mutation may have
removed the draft between the failed create and this read).  The reload
fetches only `guid`, `version`, `from_version`, `locked_by` and sets
`Id` from the document id; it is answered 409.  When the reload reports
not-found, the Go code reassigns `article` to nil and then evaluates
`article.Guid`: a nil-pointer dereference, modelled as `none` (panic);
the intended 409-with-guid payload is never produced. -/
def editReload (s : Store) (a : Article) : Option (Store × Resp) :=
  match s.drafts a.guid with
  | some d =>
    some (s, ⟨409, some { emptyArticle with
      id := a.guid,
      guid := d.guid,
      version := d.version,
      fromVersion := d.fromVersion,
      lockedBy := d.lockedBy }⟩)
  | none => none

/-- `editArticle` (lines 427-480): load the full version `id`, derive a
draft (`from_version := version`, `version := 0`, `revised_at := nil`,
`revised_by := locked_by := user`), then create-only index it under the
version's `guid`; on conflict fall through to `editReload`.  `none`
models the panic inside `editReload`. -/
def editArticle (s : Store) (id user : String) : Option (Store × Resp) :=
  match s.versions id with
  | none => some (s, ⟨404, none⟩)
  | some v =>
    let a : Article := { v with
      id := id,
      fromVersion := v.version,
      version := 0,
      revisedAt := none,
      revisedBy := user,
      lockedBy := user }
    match s.drafts a.guid with
    | none =>
      some ({ s with drafts := setKey s.drafts a.guid (some a) }, ⟨200, some a⟩)
    | some _ => editReload s a

/-- JSON-merge of the upsert document `new` into the stored publish row
`old`: with `omitempty` serialization a zero-valued field of `new` is
absent from the document, so the merge keeps the stored value for it. -/
def mergePublish (old new : Article) : Article :=
  { id := if new.id = "" then old.id else new.id,
    guid := if new.guid = "" then old.guid else new.guid,
    version := if new.version = 0 then old.version else new.version,
    headline := if new.headline = "" then old.headline else new.headline,
    summary := if new.summary = "" then old.summary else new.summary,
    content := if new.content = "" then old.content else new.content,
    tag := if new.tag = [] then old.tag else new.tag,
    note := if new.note = "" then old.note else new.note,
    createdAt := match new.createdAt with | none => old.createdAt | some t => some t,
    createdBy := if new.createdBy = "" then old.createdBy else new.createdBy,
    revisedAt := match new.revisedAt with | none => old.revisedAt | some t => some t,
    revisedBy := if new.revisedBy = "" then old.revisedBy else new.revisedBy,
    fromVersion := if new.fromVersion = 0 then old.fromVersion else new.fromVersion,
    lockedBy := if new.lockedBy = "" then old.lockedBy else new.lockedBy }

/-- `publishArticle` (lines 482-514): load the full version `id` (404
when missing), set `Id := guid` and clear `locked_by`, then
`Doc`+`DocAsUpsert` under the guid: insert when no publish row exists,
JSON-merge into the existing row otherwise; answer 200. -/
def publishArticle (s : Store) (id : String) : Store × Resp :=
  match s.versions id with
  | none => (s, ⟨404, none⟩)
  | some v =>
    let a : Article := { v with id := v.guid, lockedBy := "" }
    let newDoc : Article :=
      match s.publishes v.guid with
      | none => a
      | some old => mergePublish old a
    ({ s with publishes := setKey s.publishes v.guid (some newDoc) }, ⟨200, none⟩)

/-! ## Lemmas about the id codec -/

theorem parseDigitsAux_append (xs ys : List Char) (acc : Nat) :
    parseDigitsAux acc (xs ++ ys) =
      (parseDigitsAux acc xs).bind (fun m => parseDigitsAux m ys) := by
  induction xs generalizing acc with
  | nil => simp [parseDigitsAux]
  | cons c rest ih =>
    simp only [List.cons_append, parseDigitsAux]
    cases digitVal c with
    | none => simp
    | some d => simp [ih]

theorem digitVal_digitChar (d : Nat) (h : d < 10) :
    digitVal (Nat.digitChar d) = some d := by
  interval_cases d <;> decide

theorem digitChar_ne_special (d : Nat) (h : d < 10) :
    Nat.digitChar d ≠ ':' ∧ Nat.digitChar d ≠ '+' ∧ Nat.digitChar d ≠ '-' := by
  interval_cases d <;> refine ⟨by decide, by decide, by decide⟩

theorem mem_natDecimalRevAux (f : Nat) : ∀ n c, c ∈ natDecimalRevAux f n →
    ∃ d, d < 10 ∧ c = Nat.digitChar d := by
  induction f with
  | zero => intro n c h; simp [natDecimalRevAux] at h
  | succ f ih =>
    intro n c h
    match n with
    | 0 => simp [natDecimalRevAux] at h
    | m + 1 =>
      simp only [natDecimalRevAux, List.mem_cons] at h
      rcases h with h | h
      · exact ⟨(m + 1) % 10, Nat.mod_lt _ (by omega), h⟩
      · exact ih _ _ h

theorem natDecimalRevAux_ne_nil (f m : Nat) :
    natDecimalRevAux (f + 1) (m + 1) ≠ [] := by
  simp [natDecimalRevAux]

theorem parseDigitsAux_decimal (f : Nat) : ∀ n acc, n ≤ f →
    parseDigitsAux acc ((natDecimalRevAux f n).reverse) =
      some (acc * 10 ^ (natDecimalRevAux f n).length + n) := by
  induction f with
  | zero =>
    intro n acc h
    interval_cases n
    simp [natDecimalRevAux, parseDigitsAux]
  | succ f ih =>
    intro n acc h
    match n with
    | 0 => simp [natDecimalRevAux, parseDigitsAux]
    | m + 1 =>
      have hdiv : (m + 1) / 10 ≤ f := by omega
      have hmod : (m + 1) % 10 < 10 := Nat.mod_lt _ (by omega)
      simp only [natDecimalRevAux, List.reverse_cons]
      rw [parseDigitsAux_append, ih _ acc hdiv]
      simp only [Option.some_bind, parseDigitsAux, digitVal_digitChar _ hmod,
        List.length_cons, Option.some.injEq]
      rw [pow_succ]
      generalize (10 : Nat) ^ (natDecimalRevAux f ((m + 1) / 10)).length = P
      have key : (m + 1) / 10 * 10 + (m + 1) % 10 = m + 1 := by omega
      calc (acc * P + (m + 1) / 10) * 10 + (m + 1) % 10
          = acc * (P * 10) + ((m + 1) / 10 * 10 + (m + 1) % 10) := by ring
        _ = acc * (P * 10) + (m + 1) := by rw [key]

theorem parseDigits_decimal (n : Nat) (h : 0 < n) :
    parseDigits ((natDecimalRev n).reverse) = some n := by
  match n, h with
  | m + 1, _ =>
    have h1 := parseDigitsAux_decimal (m + 1) (m + 1) 0 le_rfl
    have hne : natDecimalRevAux (m + 1) (m + 1) ≠ [] := natDecimalRevAux_ne_nil m m
    unfold parseDigits natDecimalRev
    rw [if_neg (by simpa [List.isEmpty_iff] using hne)]
    simpa using h1

theorem goParseInt64_decimal (n : Nat) (h0 : 0 < n) (hb : n ≤ int64Max) :
    goParseInt64 ((natDecimalRev n).reverse) = some (n : Int) := by
  obtain ⟨c, rest, hc⟩ : ∃ c rest, (natDecimalRev n).reverse = c :: rest := by
    match n, h0 with
    | m + 1, _ =>
      cases hr : (natDecimalRevAux (m + 1) (m + 1)).reverse with
      | nil => exact absurd (List.reverse_eq_nil_iff.mp hr) (natDecimalRevAux_ne_nil m m)
      | cons c rest => exact ⟨c, rest, hr⟩
  have hcmem : c ∈ natDecimalRev n := by
    have : c ∈ (natDecimalRev n).reverse := by rw [hc]; exact List.mem_cons_self _ _
    simpa using this
  obtain ⟨d, hd10, hcd⟩ := mem_natDecimalRevAux n n c hcmem
  obtain ⟨-, hne2, hne3⟩ := digitChar_ne_special d hd10
  rw [hc]
  unfold goParseInt64
  dsimp only
  rw [if_neg (hcd ▸ hne2), if_neg (hcd ▸ hne3), ← hc, parseDigits_decimal n h0]
  dsimp only
  rw [if_pos hb]

theorem lastColonIdx_of_not_mem (cs : List Char) (h : ':' ∉ cs) :
    lastColonIdx cs = none := by
  induction cs with
  | nil => rfl
  | cons c rest ih =>
    simp only [List.mem_cons, not_or] at h
    simp only [lastColonIdx, ih h.2]
    rw [if_neg (fun hh => h.1 hh.symm)]

theorem lastColonIdx_append (xs ys : List Char) (h : ':' ∉ ys) :
    lastColonIdx (xs ++ ':' :: ys) = some xs.length := by
  induction xs with
  | nil => simp [lastColonIdx, lastColonIdx_of_not_mem ys h]
  | cons x xs ih => simp [lastColonIdx, ih]

theorem parseArticleId_split (g t : String) (hg : g ≠ "") (ht : ':' ∉ t.data) :
    parseArticleId (g ++ ":" ++ t) =
      match goParseInt64 t.data with
      | some v => ⟨g, v, false⟩
      | none => ⟨g, 0, true⟩ := by
  have hdata : (g ++ ":" ++ t).data = g.data ++ ':' :: t.data := by
    rw [String.data_append, String.data_append, List.append_assoc]
    rfl
  have hglen : g.data ≠ [] := by
    intro hnil
    exact hg (by cases g with | mk l => simp_all)
  have hmk : (⟨g.data⟩ : String) = g := by cases g with | mk l => rfl
  unfold parseArticleId
  rw [hdata, lastColonIdx_append _ _ ht]
  dsimp only
  rw [if_neg (fun h => hglen (List.length_eq_zero.mp h))]
  rw [List.drop_append 1, List.drop_one, List.tail_cons, List.take_left, hmk]

/-- C9: `parseArticleId` splits on the last `':'`, and when no `':'` is
present the whole id is the guid with version 0 — but when the suffix
after the last `':'` fails to parse as an integer the guid is the part
BEFORE the last `':'` (not the whole input string) and a non-nil error is
returned alongside version 0, contradicting the claim.  This is the
counterexample: on `"abc:xyz"` the claim predicts guid `"abc:xyz"`
treated as a draft reference; the code yields guid `"abc"` plus an
error. -/
theorem parse_bad_suffix_cex :
    ¬ ((parseArticleId "abc:xyz").guid = "abc:xyz" ∧
       (parseArticleId "abc:xyz").ver = 0 ∧
       (parseArticleId "abc:xyz").err = false) := by decide

/-- C9 (amended): for every id string with no `':'`, the result is
version 0 and guid equal to the whole input with no error; for every id
of the form `g:t` (`g` nonempty, the split on the LAST `':'`) whose
suffix `t` fails to parse as an int64, the result is version 0, guid
equal to `g` — the part before the last `':'` — and an error. -/
theorem parse_last_colon_amended :
    (∀ id : String, ':' ∉ id.data → parseArticleId id = ⟨id, 0, false⟩) ∧
    (∀ g t : String, g ≠ "" → ':' ∉ t.data → goParseInt64 t.data = none →
      parseArticleId (g ++ ":" ++ t) = ⟨g, 0, true⟩) := by
  constructor
  · intro id h
    unfold parseArticleId
    rw [lastColonIdx_of_not_mem _ h]
  · intro g t hg ht hp
    rw [parseArticleId_split g t hg ht, hp]

/-- Witness for the amended C9 at concrete inputs: an id with no colon,
and the split of `"abc:xyz"`. -/
theorem parse_last_colon_amended_instance :
    parseArticleId "abc" = ⟨"abc", 0, false⟩ ∧
    parseArticleId ("abc" ++ ":" ++ "xyz") = ⟨"abc", 0, true⟩ :=
  ⟨parse_last_colon_amended.1 "abc" (by decide),
   parse_last_colon_amended.2 "abc" "xyz" (by decide) (by decide) (by decide)⟩

/-- C10: parsing an id built the way `submitArticle` builds version ids
(`guid ++ ":" ++ decimal rendering of the version`) round-trips: for
every nonempty guid — colons inside the guid included, the split being on
the LAST `':'` — and every `int64` version `v > 0`, the parse returns
exactly the guid, the version and no error. -/
theorem parse_version_id_roundtrip (g : String) (v : Int) (hg : g ≠ "")
    (h0 : 0 < v) (hb : v ≤ 2 ^ 63 - 1) :
    parseArticleId (g ++ ":" ++ intDecimal v) = ⟨g, v, false⟩ := by
  have hdec : intDecimal v = ⟨(natDecimalRev v.toNat).reverse⟩ := by
    unfold intDecimal natDecimal
    rw [if_neg (by omega), if_neg (by omega)]
  have ht : ':' ∉ (⟨(natDecimalRev v.toNat).reverse⟩ : String).data := by
    intro hmem
    obtain ⟨d, hd, hcd⟩ :=
      mem_natDecimalRevAux v.toNat v.toNat ':' (List.mem_reverse.mp hmem)
    exact (digitChar_ne_special d hd).1 hcd.symm
  rw [hdec, parseArticleId_split g _ hg ht]
  have hval : goParseInt64 ((natDecimalRev v.toNat).reverse) = some ((v.toNat : Nat) : Int) :=
    goParseInt64_decimal _ (by omega) (by unfold int64Max; omega)
  have hdat : (⟨(natDecimalRev v.toNat).reverse⟩ : String).data =
      (natDecimalRev v.toNat).reverse := rfl
  rw [hdat, hval, Int.toNat_of_nonneg (le_of_lt h0)]

/-- Witness for C10 at a concrete input whose guid itself contains a
colon. -/
theorem parse_version_id_roundtrip_instance :
    parseArticleId ("a:b" ++ ":" ++ intDecimal 42) = ⟨"a:b", 42, false⟩ :=
  parse_version_id_roundtrip "a:b" 42 (by decide) (by decide) (by norm_num)

/-! ## Theorems about the handlers -/

/-- C1: a `save` on a stored draft by a user other than the draft's
`lockedBy` yields the `noop` script result, which the handler answers
with Forbidden (403), and the store — every field of the draft
(`headline`, `summary`, `content`, `tag`, `note`, and all the rest)
included — is returned unchanged. -/
theorem save_by_other_forbidden (s : Store) (id user : String) (body d : Article)
    (hd : s.drafts id = some d) (hlock : d.lockedBy ≠ user) :
    saveArticle s id user body = (s, ⟨403, none⟩) := by
  unfold saveArticle
  rw [hd]
  unfold esSaveScript
  dsimp only
  rw [if_pos ⟨rfl, hlock⟩]

def draftG : Article := { emptyArticle with guid := "g", lockedBy := "alice" }

def storeG : Store :=
  { emptyStore with drafts := setKey emptyStore.drafts "g" (some draftG) }

def bodyH : Article := { emptyArticle with guid := "g", headline := "H" }

/-- Witness for C1: `bob` cannot save a draft locked by `alice`. -/
theorem save_by_other_forbidden_instance :
    saveArticle storeG "g" "bob" bodyH = (storeG, ⟨403, none⟩) :=
  save_by_other_forbidden storeG "g" "bob" bodyH draftG (by decide) (by decide)

/-- C6: a `save` on a stored draft by the very user recorded in its
`lockedBy` runs the script's else-branch, so the update result is
`updated` and the handler answers 200 with the five payload fields
overwritten.  Scripted updates report `noop` only through
`ctx.op = "none"` (`detect_noop` applies to partial-document updates
only), so a save whose field values equal the stored ones is still
`updated` — never confused with the predicate rejection that yields
403. -/
theorem save_by_owner_ok (s : Store) (id : String) (body d : Article)
    (hd : s.drafts id = some d) :
    (saveArticle s id d.lockedBy body).2 = ⟨200, none⟩ ∧
    (saveArticle s id d.lockedBy body).1.drafts id = some (applySaveFields body d) := by
  unfold saveArticle
  rw [hd]
  unfold esSaveScript
  dsimp only
  rw [if_neg (by simp)]
  exact ⟨rfl, by simp [setKey]⟩

/-- Witness for C6, exercising the no-effective-change case: the body
equals the stored draft, and the result is still 200 (not 403). -/
theorem save_by_owner_ok_instance :
    (saveArticle storeG "g" draftG.lockedBy draftG).2 = ⟨200, none⟩ ∧
    (saveArticle storeG "g" draftG.lockedBy draftG).1.drafts "g" =
      some (applySaveFields draftG draftG) :=
  save_by_owner_ok storeG "g" draftG draftG (by decide)

/-! ## Theorems about `submitArticle` -/

theorem submitVersionDoc_guid (body : Article) (vg u : String) (ts : Int) :
    (submitVersionDoc body vg u ts).guid = body.guid := by
  unfold submitVersionDoc
  dsimp only
  split <;> rfl

theorem submitVersionDoc_id (body : Article) (vg u : String) (ts : Int) :
    (submitVersionDoc body vg u ts).id = vg := by
  unfold submitVersionDoc
  dsimp only
  split <;> rfl

theorem submitVersionDoc_version (body : Article) (vg u : String) (ts : Int) :
    (submitVersionDoc body vg u ts).version = ts := by
  unfold submitVersionDoc
  dsimp only
  split <;> rfl

theorem submitVersionDoc_create (body : Article) (vg u : String) (ts : Int)
    (h : body.fromVersion = 0) :
    (submitVersionDoc body vg u ts).createdAt = some ts ∧
    (submitVersionDoc body vg u ts).createdBy = u ∧
    (submitVersionDoc body vg u ts).revisedAt = none ∧
    (submitVersionDoc body vg u ts).revisedBy = "" := by
  unfold submitVersionDoc
  dsimp only
  rw [if_pos h]
  exact ⟨rfl, rfl, rfl, rfl⟩

theorem submitVersionDoc_edit (body : Article) (vg u : String) (ts : Int)
    (h : body.fromVersion ≠ 0) :
    (submitVersionDoc body vg u ts).createdAt = body.createdAt ∧
    (submitVersionDoc body vg u ts).createdBy = body.createdBy ∧
    (submitVersionDoc body vg u ts).revisedAt = some ts ∧
    (submitVersionDoc body vg u ts).revisedBy = u := by
  unfold submitVersionDoc
  dsimp only
  rw [if_neg h]
  exact ⟨rfl, rfl, rfl, rfl⟩

/-- Full characterization of a successful `submitArticle`: the draft at
the request id is first overwritten with the body's payload fields, the
version document is created under `guid:ts`, the draft keyed by the
BODY's `guid` field is deleted, and the answer is 200 with the stripped
version document. -/
theorem submitArticle_success (s : Store) (g user : String) (body d : Article) (ts : Int)
    (hd : s.drafts g = some d)
    (hv : s.versions (g ++ ":" ++ intDecimal ts) = none)
    (hb : s.drafts body.guid ≠ none) :
    submitArticle s g user body ts =
      ({ drafts := setKey (setKey s.drafts g (some (applySaveFields body d))) body.guid none,
         versions := setKey s.versions (g ++ ":" ++ intDecimal ts)
           (some (submitVersionDoc body (g ++ ":" ++ intDecimal ts) user ts)),
         publishes := s.publishes },
       ⟨200, some { submitVersionDoc body (g ++ ":" ++ intDecimal ts) user ts with
         headline := "", summary := "", content := "", tag := [], note := "" }⟩) := by
  unfold submitArticle
  rw [hd]
  dsimp only
  rw [hv]
  dsimp only
  rw [submitVersionDoc_guid]
  by_cases hc : body.guid = g
  · rw [show setKey s.drafts g (some (applySaveFields body d)) body.guid =
      some (applySaveFields body d) from by simp [setKey, hc]]
  · rw [show setKey s.drafts g (some (applySaveFields body d)) body.guid =
      s.drafts body.guid from by simp [setKey, hc]]
    obtain ⟨w, hw⟩ := Option.ne_none_iff_exists'.mp hb
    rw [hw]

/-- C2: a successful `submit` of draft `g` at instant `ts` answers 200
with a payload whose `id` is the string `g:ts`, whose `version` is `ts`,
whose `lockedBy` is empty, and whose five payload fields are stripped
(empty, hence absent under `omitempty` marshalling). -/
theorem submit_success_payload (s : Store) (g user : String) (body d : Article) (ts : Int)
    (hd : s.drafts g = some d)
    (hv : s.versions (g ++ ":" ++ intDecimal ts) = none)
    (hb : s.drafts body.guid ≠ none) :
    (submitArticle s g user body ts).2.status = 200 ∧
    ((submitArticle s g user body ts).2.payload).map Article.id =
      some (g ++ ":" ++ intDecimal ts) ∧
    ((submitArticle s g user body ts).2.payload).map Article.version = some ts ∧
    ((submitArticle s g user body ts).2.payload).map Article.lockedBy = some "" ∧
    ((submitArticle s g user body ts).2.payload).map Article.headline = some "" ∧
    ((submitArticle s g user body ts).2.payload).map Article.summary = some "" ∧
    ((submitArticle s g user body ts).2.payload).map Article.content = some "" ∧
    ((submitArticle s g user body ts).2.payload).map Article.tag = some [] ∧
    ((submitArticle s g user body ts).2.payload).map Article.note = some "" := by
  rw [submitArticle_success s g user body d ts hd hv hb]
  refine ⟨rfl, ?_, ?_, rfl, rfl, rfl, rfl, rfl, rfl⟩
  · simp [submitVersionDoc_id]
  · simp [submitVersionDoc_version]

/-- Witness for C2 at a concrete store and instant. -/
theorem submit_success_payload_instance :
    (submitArticle storeG "g" "u" bodyH 7).2.status = 200 ∧
    ((submitArticle storeG "g" "u" bodyH 7).2.payload).map Article.id =
      some ("g" ++ ":" ++ intDecimal 7) ∧
    ((submitArticle storeG "g" "u" bodyH 7).2.payload).map Article.version = some 7 ∧
    ((submitArticle storeG "g" "u" bodyH 7).2.payload).map Article.lockedBy = some "" ∧
    ((submitArticle storeG "g" "u" bodyH 7).2.payload).map Article.headline = some "" ∧
    ((submitArticle storeG "g" "u" bodyH 7).2.payload).map Article.summary = some "" ∧
    ((submitArticle storeG "g" "u" bodyH 7).2.payload).map Article.content = some "" ∧
    ((submitArticle storeG "g" "u" bodyH 7).2.payload).map Article.tag = some [] ∧
    ((submitArticle storeG "g" "u" bodyH 7).2.payload).map Article.note = some "" :=
  submit_success_payload storeG "g" "u" bodyH draftG 7 (by decide) (by decide) (by decide)

def collidingVersion : Article := { emptyArticle with id := "g:7", guid := "g", version := 7 }

def storeGV : Store :=
  { storeG with versions := setKey storeG.versions ("g" ++ ":" ++ intDecimal 7) (some collidingVersion) }

/-- C5: when the create-only write of the version row finds the id
already taken (`Created = false`), `submit` answers Internal (500)
immediately: the versions collection is unchanged (the create is not
retried), the draft-delete step is not reached, and the draft row —
holding the payload the first step wrote — is still present. -/
theorem submit_collision_internal (s : Store) (g user : String) (body d w : Article) (ts : Int)
    (hd : s.drafts g = some d)
    (hv : s.versions (g ++ ":" ++ intDecimal ts) = some w) :
    submitArticle s g user body ts =
      ({ s with drafts := setKey s.drafts g (some (applySaveFields body d)) }, ⟨500, none⟩) ∧
    (submitArticle s g user body ts).1.versions = s.versions ∧
    (submitArticle s g user body ts).1.publishes = s.publishes ∧
    (submitArticle s g user body ts).1.drafts g = some (applySaveFields body d) := by
  have h1 : submitArticle s g user body ts =
      ({ s with drafts := setKey s.drafts g (some (applySaveFields body d)) }, ⟨500, none⟩) := by
    unfold submitArticle
    rw [hd]
    dsimp only
    rw [hv]
  refine ⟨h1, ?_, ?_, ?_⟩
  · rw [h1]
  · rw [h1]
  · rw [h1]
    simp [setKey]

/-- Witness for C5: the version id `g:7` is already taken. -/
theorem submit_collision_internal_instance :
    submitArticle storeGV "g" "u" bodyH 7 =
      ({ storeGV with drafts := setKey storeGV.drafts "g" (some (applySaveFields bodyH draftG)) },
       ⟨500, none⟩) ∧
    (submitArticle storeGV "g" "u" bodyH 7).1.versions = storeGV.versions ∧
    (submitArticle storeGV "g" "u" bodyH 7).1.publishes = storeGV.publishes ∧
    (submitArticle storeGV "g" "u" bodyH 7).1.drafts "g" = some (applySaveFields bodyH draftG) :=
  submit_collision_internal storeGV "g" "u" bodyH draftG collidingVersion 7 (by decide) (by decide)

def draftH : Article := { emptyArticle with guid := "h", lockedBy := "alice" }

def storeGH : Store :=
  { emptyStore with drafts := setKey (setKey emptyStore.drafts "g" (some draftG)) "h" (some draftH) }

def bodyOtherGuid : Article := { emptyArticle with guid := "h", headline := "H" }

/-- C7: refuted.  The claim says the draft deleted by `submit`'s final
step is the one keyed by the request's article id, so that draft is
absent after a 200.  But line 388 deletes `article.Guid` — the `guid`
field of the REQUEST BODY — while the lock, the first-step update and
the version id all use the request id.  Submitting id `"g"` with a body
whose `guid` is `"h"` succeeds (200) yet leaves draft `"g"` in place and
deletes draft `"h"` instead. -/
theorem submit_deletes_body_guid_draft :
    (submitArticle storeGH "g" "u" bodyOtherGuid 5).2.status = 200 ∧
    ((submitArticle storeGH "g" "u" bodyOtherGuid 5).2.payload).map Article.id = some "g:5" ∧
    (submitArticle storeGH "g" "u" bodyOtherGuid 5).1.drafts "g" ≠ none ∧
    (submitArticle storeGH "g" "u" bodyOtherGuid 5).1.drafts "h" = none := by decide

theorem createArticle_versions (s : Store) (nid u : String) :
    (createArticle s nid u).1.versions = s.versions := rfl

theorem saveArticle_versions (s : Store) (id u : String) (b : Article) :
    (saveArticle s id u b).1.versions = s.versions := by
  unfold saveArticle
  cases hds : s.drafts id with
  | none => rfl
  | some src =>
    dsimp only
    cases esSaveScript true u b src <;> rfl

theorem publishArticle_versions (s : Store) (id : String) :
    (publishArticle s id).1.versions = s.versions := by
  unfold publishArticle
  cases hv : s.versions id with
  | none => rfl
  | some v => rfl

theorem editArticle_versions (s : Store) (id u : String) (out : Store × Resp)
    (h : editArticle s id u = some out) : out.1.versions = s.versions := by
  unfold editArticle at h
  cases hv : s.versions id with
  | none =>
    rw [hv] at h
    cases h
    rfl
  | some v =>
    rw [hv] at h
    dsimp only at h
    cases hd : s.drafts v.guid with
    | none =>
      rw [hd] at h
      cases h
      rfl
    | some d =>
      rw [hd] at h
      unfold editReload at h
      dsimp only at h
      rw [hd] at h
      cases h
      rfl

/-- C8: provenance across submits.  A submit whose body carries
`fromVersion = 0` (the article's first creation) stores the version row
with `createdAt/createdBy` set to the submit instant and user and
`revisedAt` cleared; a submit with `fromVersion ≠ 0` leaves
`createdAt/createdBy` exactly as the body carries them and sets
`revisedAt/revisedBy`.  Version rows already present are never
overwritten by a submit (the create-only write fails instead), and no
other operation (`create`, `save`, `publish`, `edit`) ever writes the
versions collection. -/
theorem submit_provenance (s : Store) (g user : String) (body d : Article) (ts : Int)
    (hd : s.drafts g = some d)
    (hv : s.versions (g ++ ":" ++ intDecimal ts) = none)
    (hb : s.drafts body.guid ≠ none) :
    (body.fromVersion = 0 →
      ((submitArticle s g user body ts).1.versions (g ++ ":" ++ intDecimal ts)).map
        Article.createdAt = some (some ts) ∧
      ((submitArticle s g user body ts).1.versions (g ++ ":" ++ intDecimal ts)).map
        Article.createdBy = some user ∧
      ((submitArticle s g user body ts).1.versions (g ++ ":" ++ intDecimal ts)).map
        Article.revisedAt = some none) ∧
    (body.fromVersion ≠ 0 →
      ((submitArticle s g user body ts).1.versions (g ++ ":" ++ intDecimal ts)).map
        Article.createdAt = some body.createdAt ∧
      ((submitArticle s g user body ts).1.versions (g ++ ":" ++ intDecimal ts)).map
        Article.createdBy = some body.createdBy ∧
      ((submitArticle s g user body ts).1.versions (g ++ ":" ++ intDecimal ts)).map
        Article.revisedAt = some (some ts) ∧
      ((submitArticle s g user body ts).1.versions (g ++ ":" ++ intDecimal ts)).map
        Article.revisedBy = some user) ∧
    (∀ k, s.versions k ≠ none →
      (submitArticle s g user body ts).1.versions k = s.versions k) ∧
    (∀ s2 nid u, (createArticle s2 nid u).1.versions = s2.versions) ∧
    (∀ s2 id u b, (saveArticle s2 id u b).1.versions = s2.versions) ∧
    (∀ s2 id, (publishArticle s2 id).1.versions = s2.versions) ∧
    (∀ s2 id u out, editArticle s2 id u = some out → out.1.versions = s2.versions) := by
  rw [submitArticle_success s g user body d ts hd hv hb]
  dsimp only
  refine ⟨?_, ?_, ?_, createArticle_versions, saveArticle_versions,
    publishArticle_versions, editArticle_versions⟩
  · intro h0
    obtain ⟨h1, h2, h3, -⟩ :=
      submitVersionDoc_create body (g ++ ":" ++ intDecimal ts) user ts h0
    simp [setKey, h1, h2, h3]
  · intro h0
    obtain ⟨h1, h2, h3, h4⟩ :=
      submitVersionDoc_edit body (g ++ ":" ++ intDecimal ts) user ts h0
    simp [setKey, h1, h2, h3, h4]
  · intro k hk
    have hne : k ≠ g ++ ":" ++ intDecimal ts := fun he => hk (he ▸ hv)
    simp [setKey, hne]

/-- Witness for C8: a first-creation submit (`fromVersion = 0`) at a
concrete store and instant. -/
theorem submit_provenance_instance :
    ((submitArticle storeG "g" "u" bodyH 7).1.versions ("g" ++ ":" ++ intDecimal 7)).map
      Article.createdAt = some (some 7) ∧
    ((submitArticle storeG "g" "u" bodyH 7).1.versions ("g" ++ ":" ++ intDecimal 7)).map
      Article.createdBy = some "u" ∧
    ((submitArticle storeG "g" "u" bodyH 7).1.versions ("g" ++ ":" ++ intDecimal 7)).map
      Article.revisedAt = some none :=
  (submit_provenance storeG "g" "u" bodyH draftG 7 (by decide) (by decide) (by decide)).1
    (by decide)

/-! ## Theorems about `publishArticle` -/

def versionOne : Article :=
  { emptyArticle with id := "g:1", guid := "g", version := 1, headline := "h1", note := "x" }

def versionTwo : Article :=
  { emptyArticle with id := "g:2", guid := "g", version := 2, headline := "h2", note := "" }

def storeTwoVersions : Store :=
  { emptyStore with
    versions := setKey (setKey emptyStore.versions "g:1" (some versionOne)) "g:2" (some versionTwo) }

def storePublished : Store := (publishArticle storeTwoVersions "g:1").1

/-- C3: refuted.  The claim says that after publishing version `v` the
Publish row holds the full content of `v` — every payload field equal to
the version's — regardless of whether a Publish row already existed.
But `publishArticle` upserts with a partial-document merge under
`omitempty` marshalling, so a field that is empty in the newly published
version keeps its previously published value.  Concretely: after
publishing `g:1` (note `"x"`) and then `g:2` (note `""`), the Publish
row carries note `"x"`, not version `g:2`'s empty note — even though the
publish of `g:2` answered 200. -/
theorem publish_stale_field_cex :
    (storePublished.versions "g:2").map Article.note = some "" ∧
    (publishArticle storePublished "g:2").2.status = 200 ∧
    ((publishArticle storePublished "g:2").1.publishes "g").map Article.note = some "x" ∧
    ((publishArticle storePublished "g:2").1.publishes "g").map Article.headline = some "h2" := by
  decide

/-- C3 (amended): after a publish of existing version `v` the handler
answers 200 and writes the Publish row under `v`'s guid with `Id` set to
the guid and `lockedBy` cleared in the upsert document; when no Publish
row existed the row is exactly that document (the full version content),
and when one existed the row is the JSON merge of the document into the
old row — fields empty in the version (empty strings, zero numbers,
empty tag list, absent timestamps, and the cleared `lockedBy`) keep
their previously published values.  No ordering between `v.version` and
the previously published version is checked: the write happens
unconditionally (last write wins). -/
theorem publish_upsert_merge (s : Store) (id : String) (v : Article)
    (hv : s.versions id = some v) :
    (publishArticle s id).2 = ⟨200, none⟩ ∧
    (s.publishes v.guid = none →
      (publishArticle s id).1.publishes v.guid =
        some { v with id := v.guid, lockedBy := "" }) ∧
    (∀ old, s.publishes v.guid = some old →
      (publishArticle s id).1.publishes v.guid =
        some (mergePublish old { v with id := v.guid, lockedBy := "" })) := by
  unfold publishArticle
  rw [hv]
  dsimp only
  refine ⟨rfl, ?_, ?_⟩
  · intro h
    rw [h]
    simp [setKey]
  · intro old h
    rw [h]
    simp [setKey]

/-- Witness for C3 (amended): publishing `g:2` over the row left by
`g:1` merges; the hypotheses are discharged at the concrete store. -/
theorem publish_upsert_merge_instance :
    (publishArticle storePublished "g:2").2 = ⟨200, none⟩ ∧
    (storePublished.publishes "g" = none →
      (publishArticle storePublished "g:2").1.publishes "g" =
        some { versionTwo with id := "g", lockedBy := "" }) ∧
    (∀ old, storePublished.publishes "g" = some old →
      (publishArticle storePublished "g:2").1.publishes "g" =
        some (mergePublish old { versionTwo with id := "g", lockedBy := "" })) :=
  publish_upsert_merge storePublished "g:2" versionTwo (by decide)

/-! ## Theorems about `editArticle` -/

def versionThree : Article :=
  { emptyArticle with
    id := "g:3", guid := "g", version := 3, headline := "h3",
    createdAt := some 3, createdBy := "alice" }

/-- The draft `editArticle` derives from `versionThree` for editor
`"u2"` before attempting the create (lines 439-444 applied to the
fetched version). -/
def derivedDraft : Article :=
  { versionThree with
    id := "g:3", fromVersion := 3, version := 0,
    revisedAt := none, revisedBy := "u2", lockedBy := "u2" }

def conflictingDraft : Article :=
  { emptyArticle with guid := "g", fromVersion := 1, lockedBy := "alice" }

def storeConflict : Store :=
  { emptyStore with
    drafts := setKey emptyStore.drafts "g" (some conflictingDraft),
    versions := setKey emptyStore.versions "g:3" (some versionThree) }

/-- C4: refuted on the race path.  When the create-only draft write
conflicts, `editArticle` reloads the existing draft and answers 409 with
its identity — that part holds (second and third conjuncts, via the full
handler and via `editReload` with the draft present).  But on the race
the claim describes — the reload finds no draft — the Go code has
already overwritten `article` with the reload's nil result, and the
"synthesize a 409 payload" branch evaluates `article.Guid` on that nil
pointer: a panic (modelled as `none`), not a 409 carrying the guid
(first conjunct, `editReload` against a store whose draft is gone). -/
theorem edit_conflict_reload_panics_on_race :
    editReload emptyStore derivedDraft = none ∧
    editArticle storeConflict "g:3" "u2" =
      some (storeConflict, ⟨409, some { emptyArticle with
        id := "g", guid := "g",
        fromVersion := 1, lockedBy := "alice" }⟩) ∧
    editReload storeConflict derivedDraft =
      some (storeConflict, ⟨409, some { emptyArticle with
        id := "g", guid := "g",
        fromVersion := 1, lockedBy := "alice" }⟩) := by
  refine ⟨rfl, ?_, ?_⟩ <;> rfl
